import Mathlib

/-!
Verification of the quantum-attendance backend core
(`src/quantum-attendance/backend/app.py` and
`src/quantum-attendance/backend/quantum_generator.py`).

The embedding is shallow: Python functions become Lean functions over an
explicit `ServerState`; machine words are `Nat` reduced modulo `2 ^ 32`
where the source's 32-bit arithmetic matters (inside SHA-256); side
effects (the audit-log call, the set insertion) are recorded in an event
trace returned alongside the new state.
-/

namespace QuantumAttendance

/-! ## 32-bit word arithmetic over Nat (SHA-256 primitives) -/

/-- Addition modulo `2 ^ 32`. -/
def add32 (a b : Nat) : Nat := (a + b) % 4294967296

/-- Right rotation of a 32-bit word (input assumed `< 2 ^ 32`). -/
def rotr32 (n x : Nat) : Nat := ((x >>> n) ||| (x <<< (32 - n))) % 4294967296

/-- Bitwise complement of a 32-bit word. -/
def not32 (x : Nat) : Nat := x ^^^ 4294967295

/-- SHA-256 small sigma 0: `ROTR7 ^ ROTR18 ^ SHR3`. -/
def ssig0 (x : Nat) : Nat := rotr32 7 x ^^^ rotr32 18 x ^^^ (x >>> 3)

/-- SHA-256 small sigma 1: `ROTR17 ^ ROTR19 ^ SHR10`. -/
def ssig1 (x : Nat) : Nat := rotr32 17 x ^^^ rotr32 19 x ^^^ (x >>> 10)

/-- SHA-256 big Sigma 0: `ROTR2 ^ ROTR13 ^ ROTR22`. -/
def bsig0 (x : Nat) : Nat := rotr32 2 x ^^^ rotr32 13 x ^^^ rotr32 22 x

/-- SHA-256 big Sigma 1: `ROTR6 ^ ROTR11 ^ ROTR25`. -/
def bsig1 (x : Nat) : Nat := rotr32 6 x ^^^ rotr32 11 x ^^^ rotr32 25 x

/-- SHA-256 choice function. -/
def choice (x y z : Nat) : Nat := (x &&& y) ^^^ (not32 x &&& z)

/-- SHA-256 majority function. -/
def majority (x y z : Nat) : Nat := (x &&& y) ^^^ (x &&& z) ^^^ (y &&& z)

/-- The 64 SHA-256 round constants (FIPS 180-4, written in decimal). -/
def shaK : List Nat :=
  [1116352408, 1899447441, 3049323471, 3921009573, 961987163, 1508970993,
   2453635748, 2870763221, 3624381080, 310598401, 607225278, 1426881987,
   1925078388, 2162078206, 2614888103, 3248222580, 3835390401, 4022224774,
   264347078, 604807628, 770255983, 1249150122, 1555081692, 1996064986,
   2554220882, 2821834349, 2952996808, 3210313671, 3336571891, 3584528711,
   113926993, 338241895, 666307205, 773529912, 1294757372, 1396182291,
   1695183700, 1986661051, 2177026350, 2456956037, 2730485921, 2820302411,
   3259730800, 3345764771, 3516065817, 3600352804, 4094571909, 275423344,
   430227734, 506948616, 659060556, 883997877, 958139571, 1322822218,
   1537002063, 1747873779, 1955562222, 2024104815, 2227730452, 2361852424,
   2428436474, 2756734187, 3204031479, 3329325298]

/-- The SHA-256 initial hash value (FIPS 180-4, written in decimal). -/
def shaH0 : List Nat :=
  [1779033703, 3144134277, 1013904242, 2773480762,
   1359893119, 2600822924, 528734635, 1541459225]

/-- Zero padding of a given length. -/
def zeroPad : Nat → List Nat
  | 0 => []
  | n + 1 => 0 :: zeroPad n

/-- Big-endian byte decomposition of a number into `k` bytes. -/
def beBytes : Nat → Nat → List Nat
  | 0, _ => []
  | k + 1, n => beBytes k (n >>> 8) ++ [n % 256]

/-- SHA-256 message padding: append `0x80`, zero bytes to 56 mod 64, then
the message bit length as 8 big-endian bytes. -/
def shaPad (msg : List Nat) : List Nat :=
  let l := msg.length
  let zeros := (64 - (l + 9) % 64) % 64
  msg ++ [0x80] ++ zeroPad zeros ++ beBytes 8 (l * 8)

/-- Pack bytes into big-endian 32-bit words. -/
def toWords : List Nat → List Nat
  | b0 :: b1 :: b2 :: b3 :: rest =>
      ((((b0 <<< 8) ||| b1) <<< 8 ||| b2) <<< 8 ||| b3) :: toWords rest
  | _ => []

/-- Split the padded message's words into 16-word (64-byte) blocks. -/
def toBlocks : List Nat → List (List Nat)
  | w0 :: w1 :: w2 :: w3 :: w4 :: w5 :: w6 :: w7 ::
    w8 :: w9 :: w10 :: w11 :: w12 :: w13 :: w14 :: w15 :: rest =>
      [w0, w1, w2, w3, w4, w5, w6, w7, w8, w9, w10, w11, w12, w13, w14, w15] ::
        toBlocks rest
  | _ => []

/-- Extend the 16 message words to the 64-entry schedule (`n` more entries). -/
def extendSchedule : Nat → List Nat → List Nat
  | 0, w => w
  | n + 1, w =>
      let t := w.length
      let wt := add32 (add32 (ssig1 (w.getD (t - 2) 0)) (w.getD (t - 7) 0))
                      (add32 (ssig0 (w.getD (t - 15) 0)) (w.getD (t - 16) 0))
      extendSchedule n (w ++ [wt])

/-- The eight working variables of the compression loop. -/
structure Regs where
  a : Nat
  b : Nat
  c : Nat
  d : Nat
  e : Nat
  f : Nat
  g : Nat
  h : Nat
deriving Repr, DecidableEq

/-- One SHA-256 compression round with round constant `k` and word `w`. -/
def shaRound (s : Regs) (kw : Nat × Nat) : Regs :=
  let t1 := add32 (add32 (add32 s.h (bsig1 s.e)) (add32 (choice s.e s.f s.g) kw.1)) kw.2
  let t2 := add32 (bsig0 s.a) (majority s.a s.b s.c)
  { a := add32 t1 t2, b := s.a, c := s.b, d := s.c,
    e := add32 s.d t1, f := s.e, g := s.f, h := s.g }

/-- Compress one 16-word block into the running 8-word hash state. -/
def compressBlock (hs : List Nat) (block : List Nat) : List Nat :=
  let w := extendSchedule 48 block
  let init : Regs :=
    { a := hs.getD 0 0, b := hs.getD 1 0, c := hs.getD 2 0, d := hs.getD 3 0,
      e := hs.getD 4 0, f := hs.getD 5 0, g := hs.getD 6 0, h := hs.getD 7 0 }
  let r := (shaK.zip w).foldl shaRound init
  [add32 (hs.getD 0 0) r.a, add32 (hs.getD 1 0) r.b,
   add32 (hs.getD 2 0) r.c, add32 (hs.getD 3 0) r.d,
   add32 (hs.getD 4 0) r.e, add32 (hs.getD 5 0) r.f,
   add32 (hs.getD 6 0) r.g, add32 (hs.getD 7 0) r.h]

/-- SHA-256 of a byte list, as the 8 digest words. -/
def sha256Words (msg : List Nat) : List Nat :=
  (toBlocks (toWords (shaPad msg))).foldl compressBlock shaH0

/-- Lowercase hex digit for a nibble. -/
def hexDigit (n : Nat) : Char :=
  if n < 10 then Char.ofNat (48 + n) else Char.ofNat (87 + n)

/-- The 8 lowercase hex characters of a 32-bit word, most significant first. -/
def wordHexChars (w : Nat) : List Char :=
  [hexDigit ((w >>> 28) % 16), hexDigit ((w >>> 24) % 16),
   hexDigit ((w >>> 20) % 16), hexDigit ((w >>> 16) % 16),
   hexDigit ((w >>> 12) % 16), hexDigit ((w >>> 8) % 16),
   hexDigit ((w >>> 4) % 16), hexDigit (w % 16)]

/-- `hashlib.sha256(bytes).hexdigest()`: the 64-char lowercase hex digest. -/
def sha256HexBytes (msg : List Nat) : String :=
  String.mk ((sha256Words msg).map wordHexChars).flatten

/-! ## Python string primitives used by the backend -/

/-- UTF-8 bytes of one code point (Python `str.encode()` on one char). -/
def utf8Char (c : Char) : List Nat :=
  let n := c.toNat
  if n < 0x80 then [n]
  else if n < 0x800 then
    [0xC0 ||| (n >>> 6), 0x80 ||| (n &&& 0x3F)]
  else if n < 0x10000 then
    [0xE0 ||| (n >>> 12), 0x80 ||| ((n >>> 6) &&& 0x3F), 0x80 ||| (n &&& 0x3F)]
  else
    [0xF0 ||| (n >>> 18), 0x80 ||| ((n >>> 12) &&& 0x3F),
     0x80 ||| ((n >>> 6) &&& 0x3F), 0x80 ||| (n &&& 0x3F)]

/-- `str.encode()`: UTF-8 bytes of a string. -/
def strBytes (s : String) : List Nat := (s.data.map utf8Char).flatten

/-- `hashlib.sha256(s.encode()).hexdigest()` for a string `s`. -/
def sha256Hex (s : String) : String := sha256HexBytes (strBytes s)

/-- The ASCII whitespace set of Python `str.strip()`. -/
def pySpace (c : Char) : Bool :=
  c = ' ' || c = '\t' || c = '\n' || c = '\r' || c = '\x0b' || c = '\x0c'

/-- Python `str.strip()`: drop leading and trailing whitespace. -/
def pyStrip (s : String) : String :=
  String.mk (((s.data.dropWhile pySpace).reverse.dropWhile pySpace).reverse)

/-- Python `str.upper()` (on the ASCII fragment the backend handles). -/
def pyStrUpper (s : String) : String := String.mk (s.data.map Char.toUpper)

/-- Python `s[:n]`: the first `n` code points. -/
def strTake (n : Nat) (s : String) : String := String.mk (s.data.take n)

/-- The backend's input normalization: `value.strip().upper()`. -/
def normalize (s : String) : String := pyStrUpper (pyStrip s)

/-- A Python f-string renders an optional string as itself or `"None"`. -/
def pyOptStr : Option String → String
  | none => "None"
  | some s => s

/-- A Python f-string renders an optional integer in decimal or as `"None"`. -/
def pyOptNat : Option Nat → String
  | none => "None"
  | some n => toString n

/-! ## Shared server state and request/response model (`app.py`) -/

/-- The `current_state` dict: code (the window secret), minute (the window
id), job id, expiry, and the per-minute submission set. Fields that start
as Python `None` are `Option`s; the set is a duplicate-free list. -/
structure ServerState where
  code : Option String
  minute : Option Nat
  job_id : Option String
  expires_at : Option Nat
  submissions : List String
deriving Repr, DecidableEq

/-- The state at process start, before any rotation. -/
def initialState : ServerState :=
  { code := none, minute := none, job_id := none, expires_at := none,
    submissions := [] }

/-- A parsed `/submit` JSON body: each key may be absent. `none` at the
outer level is a missing or null body. -/
structure SubmitReq where
  roll : Option String
  ticket : Option String
deriving Repr, DecidableEq

/-- The distinct outcomes of the `/submit` handler, plus the not-ready
outcome of `/current` (503) and the unhandled-exception outcome. -/
inductive Outcome where
  | MALFORMED
  | DUPLICATE
  | ACCEPTED
  | REJECTED
  | NOT_READY
  | SERVER_ERROR
deriving Repr, DecidableEq

/-- The `log_data` dict handed to the audit log on acceptance. -/
structure LogData where
  timestamp : Nat
  roll : String
  ticket : String
  mnemonic_hash : String
  ip : String
deriving Repr, DecidableEq

/-- Observable side effects of one `/submit` call, in program order. -/
inductive Event where
  | computeTicket
  | auditWrite (rec : LogData) (ok : Bool)
  | addRoll (roll : String)
deriving Repr, DecidableEq

/-- `log_to_google_sheet` in `app.py`: the mock always reports success. -/
def log_to_google_sheet (_data : LogData) : Bool := true

/-- The expected ticket recomputed server side:
`sha256(f"{code}{roll}{minute}").hexdigest().upper()[:9]`. -/
def expectedTicket (code : Option String) (roll : String) (minute : Option Nat) :
    String :=
  strTake 9 (pyStrUpper (sha256Hex (pyOptStr code ++ roll ++ pyOptNat minute)))

/-- The `/submit` handler (`submit_attendance`). `auditLog` is the audit
collaborator called in place of `log_to_google_sheet`; `now` and `ip` are
the request timestamp and client address. Returns the HTTP-level outcome,
the state left behind, and the ordered side-effect trace. -/
def submit_attendance (auditLog : LogData → Bool) (now : Nat) (ip : String)
    (st : ServerState) (req : Option SubmitReq) :
    Outcome × ServerState × List Event :=
  match req with
  | none => (Outcome.MALFORMED, st, [])
  | some data =>
    match data.roll, data.ticket with
    | some rollRaw, some ticketRaw =>
      let roll_no := normalize rollRaw
      let submitted_ticket := normalize ticketRaw
      if roll_no ∈ st.submissions then
        (Outcome.DUPLICATE, st, [])
      else
        let expected := expectedTicket st.code roll_no st.minute
        if submitted_ticket = expected then
          match st.code with
          | none =>
            -- `current_state['code'].encode()` raises on `None`:
            -- the handler dies before logging or inserting.
            (Outcome.SERVER_ERROR, st, [Event.computeTicket])
          | some c =>
            let rec0 : LogData :=
              { timestamp := now, roll := roll_no, ticket := submitted_ticket,
                mnemonic_hash := sha256Hex c, ip := ip }
            let ok := auditLog rec0
            (Outcome.ACCEPTED,
             { st with submissions := roll_no :: st.submissions },
             [Event.computeTicket, Event.auditWrite rec0 ok,
              Event.addRoll roll_no])
        else
          (Outcome.REJECTED, st, [Event.computeTicket])
    | _, _ => (Outcome.MALFORMED, st, [])

/-- The `/current` response payload. -/
structure CurrentPayload where
  code : String
  minute : Option Nat
  job_id : Option String
  expires_at : Option Nat
deriving Repr, DecidableEq

/-- The `/current` handler (`get_current_code`): 503 when the code is
falsy (absent or empty), else the full payload including the raw code. -/
def get_current_code (st : ServerState) : Outcome × Option CurrentPayload :=
  match st.code with
  | none => (Outcome.NOT_READY, none)
  | some c =>
    if c.isEmpty then (Outcome.NOT_READY, none)
    else (Outcome.ACCEPTED,
          some { code := c, minute := st.minute, job_id := st.job_id,
                 expires_at := st.expires_at })

/-! ## Rotation and the seed source (`update_mnemonic`, `quantum_generator.py`) -/

/-- What `generate_quantum_mnemonic` returns. -/
structure GenResult where
  mnemonic : String
  job_id : String
deriving Repr, DecidableEq

/-- The seed source's fate on one call: a successful quantum run (with the
measured bit string and job id), a missing-Qiskit import error, or any
other runtime failure. -/
inductive QuantumAttempt where
  | ok (binary : String) (jobId : String)
  | importErr
  | runtimeErr
deriving Repr, DecidableEq

/-- `generate_quantum_mnemonic`: hash the measured bits on success;
on either failure, substitute the hash of 32 fresh random bytes
(`os.urandom(32)`, modelled by `entropy`). Total: every path returns. -/
def generate_quantum_mnemonic (q : QuantumAttempt) (entropy : List Nat) :
    GenResult :=
  match q with
  | .ok binary jobId =>
      { mnemonic := strTake 9 (pyStrUpper (sha256Hex binary)), job_id := jobId }
  | .importErr =>
      { mnemonic := strTake 9 (pyStrUpper (sha256HexBytes entropy)),
        job_id := "fallback-no-qiskit" }
  | .runtimeErr =>
      { mnemonic := strTake 9 (pyStrUpper (sha256HexBytes entropy)),
        job_id := "fallback-error" }

/-- The scheduled rotation tick (`update_mnemonic`) at wall-clock second
`now`, given the generator's result: stamps the minute, publishes the new
code and expiry, and clears the submission set. -/
def update_mnemonic (st : ServerState) (now : Nat) (gen : GenResult) :
    ServerState :=
  let current_minute := now / 60
  { st with
    code := some gen.mnemonic,
    minute := some current_minute,
    job_id := some gen.job_id,
    expires_at := some ((current_minute + 1) * 60),
    submissions := [] }

/-! ## Auxiliary predicates and concrete fixtures -/

/-- A populated window: secret `ABC123`, window id `29123456` (the spec's
worked example), no submissions yet. -/
def exampleWindow : ServerState :=
  { code := some "ABC123", minute := some 29123456, job_id := some "J-001",
    expires_at := some 1747407420, submissions := [] }

/-- Is an event the audit-log write? -/
def isAuditEvent : Event → Bool
  | .auditWrite _ _ => true
  | _ => false

/-- Is an event the insertion of the roll into the submission set? -/
def isCommitEvent : Event → Bool
  | .addRoll _ => true
  | _ => false

/-- The ordering asserted by the spec: every audit write in a trace comes
strictly after every insertion into the submission set. -/
def auditOnlyAfterCommit (tr : List Event) : Prop :=
  ∀ i j, i < tr.length → j < tr.length →
    isAuditEvent (tr.getD i Event.computeTicket) = true →
    isCommitEvent (tr.getD j Event.computeTicket) = true → j < i

end QuantumAttendance

namespace QuantumAttendance

set_option maxRecDepth 10000

/-- C1: with a window present, non-empty normalized inputs, and a roll not
yet submitted, the handler answers ACCEPTED exactly when the normalized
ticket equals the first 9 characters of the uppercase hex SHA-256 of
secret ++ roll ++ decimal window id, and otherwise answers REJECTED. -/
theorem C1_accept_iff_hash (f : LogData → Bool) (now : Nat) (ip : String)
    (st : ServerState) (c : String) (m : Nat) (r t : String)
    (hc : st.code = some c) (hm : st.minute = some m)
    (_hr : normalize r ≠ "") (_ht : normalize t ≠ "")
    (hdup : normalize r ∉ st.submissions) :
    ((submit_attendance f now ip st (some ⟨some r, some t⟩)).1 = Outcome.ACCEPTED ↔
        normalize t =
          strTake 9 (pyStrUpper (sha256Hex (c ++ normalize r ++ toString m)))) ∧
    ((submit_attendance f now ip st (some ⟨some r, some t⟩)).1 = Outcome.ACCEPTED ∨
      (submit_attendance f now ip st (some ⟨some r, some t⟩)).1 = Outcome.REJECTED) := by
  by_cases hEq : normalize t =
      strTake 9 (pyStrUpper (sha256Hex (c ++ normalize r ++ toString m))) <;>
    simp [submit_attendance, hc, hm, hdup, expectedTicket, pyOptStr, pyOptNat, hEq]

/-- C1 witness: the spec's worked example. Secret `ABC123`, roll `S1`,
window id `29123456`: submitting the first 9 uppercase hex characters of
SHA256("ABC123S129123456"), namely `7B57F99CB`, is ACCEPTED. -/
theorem C1_witness :
    (submit_attendance log_to_google_sheet 1700000000 "10.0.0.1" exampleWindow
        (some ⟨some "S1", some "7B57F99CB"⟩)).1 = Outcome.ACCEPTED :=
  (C1_accept_iff_hash log_to_google_sheet 1700000000 "10.0.0.1" exampleWindow
      "ABC123" 29123456 "S1" "7B57F99CB" rfl rfl (by decide) (by decide)
      (by decide)).1.mpr (by decide)

/-- C2 counterexample: the `/current` payload does contain the raw window
secret — on the example window the payload's `code` field is exactly the
stored secret `ABC123`. -/
theorem C2_payload_contains_secret :
    (get_current_code exampleWindow).2 =
      some { code := "ABC123", minute := some 29123456, job_id := some "J-001",
             expires_at := some 1747407420 } ∧
    exampleWindow.code = some "ABC123" := by
  constructor <;> rfl

/-- C2 amended: whenever the stored code is present and non-empty, the
`/current` payload carries the window id (`minute`) and `expires_at`, and
also the raw secret (`code`) and the job id. -/
theorem C2_payload_fields (st : ServerState) (c : String)
    (hc : st.code = some c) (hne : ¬ c.isEmpty = true) :
    get_current_code st =
      (Outcome.ACCEPTED,
       some { code := c, minute := st.minute, job_id := st.job_id,
              expires_at := st.expires_at }) := by
  simp [get_current_code, hc, hne]

/-- C2 witness: the amended payload shape at the example window. -/
theorem C2_witness :
    get_current_code exampleWindow =
      (Outcome.ACCEPTED,
       some { code := "ABC123", minute := some 29123456, job_id := some "J-001",
              expires_at := some 1747407420 }) :=
  C2_payload_fields exampleWindow "ABC123" rfl (by decide)

/-- C3 counterexample: before the first rotation the submission handler
does not answer NOT_READY — on the initial state it hashes the placeholder
string `NoneS1None` and answers REJECTED. -/
theorem C3_submit_not_notready :
    (submit_attendance log_to_google_sheet 1700000000 "10.0.0.1" initialState
        (some ⟨some "S1", some "SOMETHING"⟩)).1 = Outcome.REJECTED ∧
    Outcome.REJECTED ≠ Outcome.NOT_READY := by
  constructor
  · decide
  · decide

/-- C3 amended: before the first rotation only the `/current` handler
reports NOT_READY; the submission handler instead derives a ticket from
the `"None"` placeholder rendering of the absent code and minute and
answers REJECTED whenever the submitted ticket differs from it. -/
theorem C3_startup_behavior (f : LogData → Bool) (now : Nat) (ip : String)
    (r t : String)
    (ht : normalize t ≠ expectedTicket none (normalize r) none) :
    (submit_attendance f now ip initialState (some ⟨some r, some t⟩)).1 =
      Outcome.REJECTED ∧
    get_current_code initialState = (Outcome.NOT_READY, none) := by
  refine ⟨?_, rfl⟩
  simp [submit_attendance, initialState, ht]

/-- C3 witness: the amended startup behavior at roll `S1`, ticket
`SOMETHING`. -/
theorem C3_witness :
    (submit_attendance log_to_google_sheet 1700000000 "10.0.0.1" initialState
        (some ⟨some "S1", some "SOMETHING"⟩)).1 = Outcome.REJECTED ∧
    get_current_code initialState = (Outcome.NOT_READY, none) :=
  C3_startup_behavior log_to_google_sheet 1700000000 "10.0.0.1" "S1" "SOMETHING"
    (by decide)

/-- C5: a rotation tick at second `now` stamps `minute = now / 60`, sets
`expires_at = (now / 60 + 1) * 60`, empties the submission set, and the
next tick 60 seconds later advances `expires_at` by exactly 60. -/
theorem C5_rotation_state (st : ServerState) (now : Nat) (g1 g2 : GenResult) :
    (update_mnemonic st now g1).minute = some (now / 60) ∧
    (update_mnemonic st now g1).expires_at = some ((now / 60 + 1) * 60) ∧
    (update_mnemonic st now g1).submissions = [] ∧
    (update_mnemonic (update_mnemonic st now g1) (now + 60) g2).expires_at =
      some ((now / 60 + 1) * 60 + 60) := by
  refine ⟨rfl, rfl, rfl, ?_⟩
  have h60 : (now + 60) / 60 = now / 60 + 1 := by omega
  simp [update_mnemonic, h60]
  ring

/-- C4: a roll already in the submission set is answered DUPLICATE with an
empty effect trace (no ticket recomputation, no audit write) and an
unchanged state; and a correct pair submitted twice in the same window is
ACCEPTED first and DUPLICATE second. -/
theorem C4_duplicate_idempotence (f : LogData → Bool) (now : Nat) (ip : String)
    (st : ServerState) (r t : String) :
    (normalize r ∈ st.submissions →
       submit_attendance f now ip st (some ⟨some r, some t⟩) =
         (Outcome.DUPLICATE, st, [])) ∧
    (∀ c, st.code = some c → normalize r ∉ st.submissions →
       normalize t = expectedTicket st.code (normalize r) st.minute →
       (submit_attendance f now ip st (some ⟨some r, some t⟩)).1 =
         Outcome.ACCEPTED ∧
       submit_attendance f now ip
           (submit_attendance f now ip st (some ⟨some r, some t⟩)).2.1
           (some ⟨some r, some t⟩) =
         (Outcome.DUPLICATE,
          (submit_attendance f now ip st (some ⟨some r, some t⟩)).2.1, [])) := by
  constructor
  · intro hmem
    simp [submit_attendance, hmem]
  · intro c hc hdup ht
    have h1 : (submit_attendance f now ip st (some ⟨some r, some t⟩)).2.1 =
        { st with submissions := normalize r :: st.submissions } := by
      simp [submit_attendance, hc, hdup, ht]
    refine ⟨by simp [submit_attendance, hc, hdup, ht], ?_⟩
    rw [h1]
    simp [submit_attendance]

/-- C4 witness: on the example window, submitting `("S1", "7B57F99CB")`
twice yields ACCEPTED then DUPLICATE. -/
theorem C4_witness :
    (submit_attendance log_to_google_sheet 1700000000 "10.0.0.1" exampleWindow
        (some ⟨some "S1", some "7B57F99CB"⟩)).1 = Outcome.ACCEPTED ∧
    submit_attendance log_to_google_sheet 1700000000 "10.0.0.1"
        (submit_attendance log_to_google_sheet 1700000000 "10.0.0.1"
          exampleWindow (some ⟨some "S1", some "7B57F99CB"⟩)).2.1
        (some ⟨some "S1", some "7B57F99CB"⟩) =
      (Outcome.DUPLICATE,
       (submit_attendance log_to_google_sheet 1700000000 "10.0.0.1"
         exampleWindow (some ⟨some "S1", some "7B57F99CB"⟩)).2.1, []) :=
  (C4_duplicate_idempotence log_to_google_sheet 1700000000 "10.0.0.1"
      exampleWindow "S1" "7B57F99CB").2 "ABC123" rfl (by decide) (by decide)

/-- C6 counterexample: on an accepted submission the audit write occurs
strictly before the roll is inserted into the submission set, refuting the
claim that the write happens only after the roll is committed. -/
theorem C6_audit_precedes_commit :
    ¬ auditOnlyAfterCommit
        (submit_attendance log_to_google_sheet 1700000000 "10.0.0.1"
          exampleWindow (some ⟨some "S1", some "7B57F99CB"⟩)).2.2 := by
  intro h
  have h12 := h 1 2 (by decide) (by decide) (by decide) (by decide)
  omega

/-- C6 amended: on an accepted submission the effect trace is exactly
ticket computation, then the audit write, then the set insertion — the
write follows the accept decision but precedes the commit — and the audit
collaborator's result cannot change the outcome or the resulting state of
any submission. -/
theorem C6_audit_order_and_independence (f g : LogData → Bool) (now : Nat)
    (ip : String) (st : ServerState) (c : String) (r t : String)
    (hc : st.code = some c) (hdup : normalize r ∉ st.submissions)
    (ht : normalize t = expectedTicket st.code (normalize r) st.minute) :
    ((submit_attendance f now ip st (some ⟨some r, some t⟩)).1 =
        Outcome.ACCEPTED ∧
      (submit_attendance f now ip st (some ⟨some r, some t⟩)).2.2 =
        [Event.computeTicket,
         Event.auditWrite
           { timestamp := now, roll := normalize r, ticket := normalize t,
             mnemonic_hash := sha256Hex c, ip := ip }
           (f { timestamp := now, roll := normalize r, ticket := normalize t,
                mnemonic_hash := sha256Hex c, ip := ip }),
         Event.addRoll (normalize r)]) ∧
    (∀ req, (submit_attendance f now ip st req).1 =
              (submit_attendance g now ip st req).1 ∧
            (submit_attendance f now ip st req).2.1 =
              (submit_attendance g now ip st req).2.1) := by
  constructor
  · constructor
    · simp [submit_attendance, hc, hdup, ht]
    · simp [submit_attendance, hc, hdup, ht]
  · intro req
    rcases req with _ | ⟨r0, t0⟩
    · exact ⟨rfl, rfl⟩
    · rcases r0 with _ | rr
      · exact ⟨rfl, rfl⟩
      · rcases t0 with _ | tt
        · exact ⟨rfl, rfl⟩
        · by_cases hm : normalize rr ∈ st.submissions
          · simp [submit_attendance, hm]
          · by_cases he : normalize tt =
                expectedTicket st.code (normalize rr) st.minute
            · rcases hcs : st.code with _ | cc <;>
                simp [submit_attendance, hm, he, hcs]
            · simp [submit_attendance, hm, he]

/-- C6 witness: with an audit collaborator that always fails, the example
submission is still ACCEPTED with the same resulting state as under the
always-succeeding mock. -/
theorem C6_witness :
    (submit_attendance (fun _ => false) 1700000000 "10.0.0.1" exampleWindow
        (some ⟨some "S1", some "7B57F99CB"⟩)).1 = Outcome.ACCEPTED ∧
    (submit_attendance (fun _ => false) 1700000000 "10.0.0.1" exampleWindow
        (some ⟨some "S1", some "7B57F99CB"⟩)).2.1 =
      (submit_attendance log_to_google_sheet 1700000000 "10.0.0.1"
        exampleWindow (some ⟨some "S1", some "7B57F99CB"⟩)).2.1 :=
  ⟨(C6_audit_order_and_independence (fun _ => false) log_to_google_sheet
      1700000000 "10.0.0.1" exampleWindow "ABC123" "S1" "7B57F99CB" rfl
      (by decide) (by decide)).1.1,
   ((C6_audit_order_and_independence (fun _ => false) log_to_google_sheet
      1700000000 "10.0.0.1" exampleWindow "ABC123" "S1" "7B57F99CB" rfl
      (by decide) (by decide)).2
      (some ⟨some "S1", some "7B57F99CB"⟩)).2⟩

/-- C8 counterexample: fields that are present but empty after trimming
are not answered MALFORMED — on the example window the all-whitespace
request is REJECTED after a ticket comparison. -/
theorem C8_empty_fields_not_malformed :
    submit_attendance log_to_google_sheet 1700000000 "10.0.0.1" exampleWindow
        (some ⟨some " ", some " "⟩) =
      (Outcome.REJECTED, exampleWindow, [Event.computeTicket]) ∧
    Outcome.REJECTED ≠ Outcome.MALFORMED := by
  constructor
  · decide
  · decide

/-- C8 amended: MALFORMED is answered exactly for a missing body or a
missing roll/ticket key — with no duplicate check, no ticket comparison,
and no state change — while present fields, even ones empty after
trimming, proceed to normal verification. -/
theorem C8_malformed_only_missing (f : LogData → Bool) (now : Nat)
    (ip : String) (st : ServerState) :
    submit_attendance f now ip st none = (Outcome.MALFORMED, st, []) ∧
    (∀ t0, submit_attendance f now ip st (some ⟨none, t0⟩) =
      (Outcome.MALFORMED, st, [])) ∧
    (∀ r0, submit_attendance f now ip st (some ⟨r0, none⟩) =
      (Outcome.MALFORMED, st, [])) ∧
    (∀ r t, (submit_attendance f now ip st (some ⟨some r, some t⟩)).1 ≠
      Outcome.MALFORMED) := by
  refine ⟨rfl, fun t0 => rfl, fun r0 => ?_, fun r t => ?_⟩
  · rcases r0 with _ | rr <;> rfl
  · by_cases hm : normalize r ∈ st.submissions
    · simp [submit_attendance, hm]
    · by_cases he : normalize t = expectedTicket st.code (normalize r) st.minute
      · rcases hcs : st.code with _ | cc <;>
          simp [submit_attendance, hm, he, hcs]
      · simp [submit_attendance, hm, he]

/-- C8 witness: the amended behavior at a concrete missing-key request. -/
theorem C8_witness :
    submit_attendance log_to_google_sheet 1700000000 "10.0.0.1" exampleWindow
        (some ⟨none, some "7B57F99CB"⟩) =
      (Outcome.MALFORMED, exampleWindow, []) :=
  (C8_malformed_only_missing log_to_google_sheet 1700000000 "10.0.0.1"
      exampleWindow).2.1 (some "7B57F99CB")

/-- C9: a rotation tick never fails on the seed source — whatever the
quantum attempt's fate, the generator returns, the tick publishes a fresh
fully-populated window, and on either failure path the published secret is
the hash-derived local fallback. -/
theorem C9_rotation_never_skipped (st : ServerState) (now : Nat)
    (q : QuantumAttempt) (entropy : List Nat) :
    (update_mnemonic st now (generate_quantum_mnemonic q entropy)).code =
      some (generate_quantum_mnemonic q entropy).mnemonic ∧
    (update_mnemonic st now (generate_quantum_mnemonic q entropy)).minute =
      some (now / 60) ∧
    (update_mnemonic st now (generate_quantum_mnemonic q entropy)).expires_at =
      some ((now / 60 + 1) * 60) ∧
    (update_mnemonic st now (generate_quantum_mnemonic q entropy)).submissions =
      [] ∧
    (q = QuantumAttempt.importErr ∨ q = QuantumAttempt.runtimeErr →
      (generate_quantum_mnemonic q entropy).mnemonic =
        strTake 9 (pyStrUpper (sha256HexBytes entropy))) := by
  refine ⟨rfl, rfl, rfl, rfl, ?_⟩
  rintro (rfl | rfl) <;> rfl

/-- C9 witness: with a failing seed source and 32 zero bytes of local
entropy, the tick still publishes a window whose secret is the fallback
hash prefix. -/
theorem C9_witness :
    (generate_quantum_mnemonic QuantumAttempt.runtimeErr
        (List.replicate 32 0)).mnemonic =
      strTake 9 (pyStrUpper (sha256HexBytes (List.replicate 32 0))) ∧
    (update_mnemonic initialState 1700000000
        (generate_quantum_mnemonic QuantumAttempt.runtimeErr
          (List.replicate 32 0))).code =
      some (generate_quantum_mnemonic QuantumAttempt.runtimeErr
        (List.replicate 32 0)).mnemonic :=
  ⟨(C9_rotation_never_skipped initialState 1700000000
      QuantumAttempt.runtimeErr (List.replicate 32 0)).2.2.2.2 (Or.inr rfl),
   (C9_rotation_never_skipped initialState 1700000000
      QuantumAttempt.runtimeErr (List.replicate 32 0)).1⟩

/-- C10: a call not answered ACCEPTED leaves the shared state entirely
unchanged; an ACCEPTED call changes the state exactly by consing the
normalized roll onto the submission set, keeping code, minute, job id and
expiry. -/
theorem C10_frame (f : LogData → Bool) (now : Nat) (ip : String)
    (st : ServerState) (req : Option SubmitReq) :
    ((submit_attendance f now ip st req).1 ≠ Outcome.ACCEPTED →
       (submit_attendance f now ip st req).2.1 = st) ∧
    ((submit_attendance f now ip st req).1 = Outcome.ACCEPTED →
       ∃ r t, req = some ⟨some r, some t⟩ ∧
         normalize r ∉ st.submissions ∧
         (submit_attendance f now ip st req).2.1 =
           { st with submissions := normalize r :: st.submissions }) := by
  rcases req with _ | ⟨r0, t0⟩
  · exact ⟨fun _ => rfl, fun h => Outcome.noConfusion h⟩
  · rcases r0 with _ | r
    · exact ⟨fun _ => rfl, fun h => Outcome.noConfusion h⟩
    · rcases t0 with _ | t
      · exact ⟨fun _ => rfl, fun h => Outcome.noConfusion h⟩
      · by_cases hm : normalize r ∈ st.submissions
        · refine ⟨fun _ => ?_, fun h => ?_⟩
          · simp [submit_attendance, hm]
          · exfalso
            simp [submit_attendance, hm] at h
        · by_cases he : normalize t =
              expectedTicket st.code (normalize r) st.minute
          · rcases hcs : st.code with _ | c
            · refine ⟨fun _ => ?_, fun h => ?_⟩
              · simp [submit_attendance, hm, he, hcs]
              · exfalso
                simp [submit_attendance, hm, he, hcs] at h
            · refine ⟨fun h => ?_, fun _ => ?_⟩
              · exfalso
                apply h
                simp [submit_attendance, hm, he, hcs]
              · exact ⟨r, t, rfl, hm, by simp [submit_attendance, hm, he, hcs]⟩
          · refine ⟨fun _ => ?_, fun h => ?_⟩
            · simp [submit_attendance, hm, he]
            · exfalso
              simp [submit_attendance, hm, he] at h

/-- C10 witness: a rejected startup submission leaves the initial state
unchanged. -/
theorem C10_witness :
    (submit_attendance log_to_google_sheet 1700000000 "10.0.0.1" initialState
        (some ⟨some "S1", some "SOMETHING"⟩)).2.1 = initialState :=
  (C10_frame log_to_google_sheet 1700000000 "10.0.0.1" initialState
      (some ⟨some "S1", some "SOMETHING"⟩)).1 (by decide)

end QuantumAttendance
